import Mathlib

/-!
Verification of the Metered Balance Engine of ComfyUI-ModalCredits.

The source is a browser extension (`src/js/creditTracker.js` and variants)
that meters a monetary balance down over wall-clock time at a cost rate
derived from allocated compute resources, plus a backend (absent from the
sources) that persists the balance and detects account changes.

Currency amounts, rates and timestamps are modelled over `ℚ` (the source
uses JavaScript numbers; the claims under study are algebraic, not about
rounding). Millisecond instants are kept as in the source: the tick reads
`Date.now()` in milliseconds and divides by 1000.
-/

namespace ModalCredits

/-- In-memory state touched by one tick of `startTracking`
(creditTracker.js lines 301-322): the balance record's
`remaining_balance` and `last_updated`, and the tracker's `lastUpdate`
millisecond instant. -/
structure TickState where
  remaining : ℚ
  lastUpdated : ℚ
  lastUpdate : ℚ
  deriving Repr, DecidableEq

/-- One tick of the `setInterval` callback in `startTracking`
(creditTracker.js lines 303-321): `elapsed = (now - lastUpdate) / 1000`,
`cost = costPerSecond * elapsed`,
`remaining = max(0, remaining - cost)`, `last_updated = now`,
`lastUpdate = now`. -/
def tick (costPerSecond : ℚ) (now : ℚ) (s : TickState) : TickState :=
  let elapsed := (now - s.lastUpdate) / 1000
  let cost := costPerSecond * elapsed
  { remaining := max 0 (s.remaining - cost)
    lastUpdated := now
    lastUpdate := now }

/-- A run of consecutive ticks at the given instants (no reset in between). -/
def runTicks (costPerSecond : ℚ) (s : TickState) : List ℚ → TickState
  | [] => s
  | t :: ts => runTicks costPerSecond (tick costPerSecond t s) ts

/-- The elapsed real time, in seconds, that one tick at instant `now` debits. -/
def elapsedSec (now : ℚ) (s : TickState) : ℚ := (now - s.lastUpdate) / 1000

/-! Rate Calculator: detectGPU and detectCompute of creditTracker.js. -/

/-- Modal pricing constant CPU_PER_CORE_HOUR (creditTracker.js line 38). -/
def CPU_PER_CORE_HOUR : ℚ := 473/10000

/-- Modal pricing constant MEMORY_PER_GB_HOUR (creditTracker.js line 39). -/
def MEMORY_PER_GB_HOUR : ℚ := 80/10000

/-- JavaScript string containment a.includes(b): b occurs as a contiguous
substring of a (case-sensitive). -/
def includes (s pat : String) : Bool := decide (pat.data <:+: s.data)

/-- Whether a pricing-table key matches the observed accelerator name, in
either direction (creditTracker.js line 134). -/
def gpuMatches (gpuType gpuName : String) : Bool :=
  includes gpuType gpuName || includes gpuName gpuType

/-- The accelerator-rate lookup of detectGPU (creditTracker.js lines
132-138): costPerHour starts at 1.0, the first table entry in enumeration
order that matches overwrites it and the loop stops. -/
def detectGPURate (gpuType : String) : List (String × ℚ) → ℚ
  | [] => 1
  | (gpuName, cost) :: rest =>
    if gpuMatches gpuType gpuName then cost else detectGPURate gpuType rest

/-- Default pricing table installed by loadConfig on a non-OK response
(creditTracker.js lines 85-91). -/
def default_gpu_costs_per_hour : List (String × ℚ) :=
  [("NVIDIA H100", 395/100), ("NVIDIA A100-SXM4-80GB", 250/100),
   ("NVIDIA A100-SXM4-40GB", 210/100), ("NVIDIA A10G", 110/100),
   ("Tesla T4", 59/100)]

/-- Total hourly cost computed at the end of detectCompute
(creditTracker.js line 177): the whole sum is multiplied by gpuCount. -/
def totalCostPerHour (gpuCostPerHour cpuCostPerHour memoryCostPerHour gpuCount : ℚ) : ℚ :=
  (gpuCostPerHour + cpuCostPerHour + memoryCostPerHour) * gpuCount

/-- Cost per second (creditTracker.js line 178). -/
def costPerSecond (gpuCostPerHour cpuCostPerHour memoryCostPerHour gpuCount : ℚ) : ℚ :=
  totalCostPerHour gpuCostPerHour cpuCostPerHour memoryCostPerHour gpuCount / 3600

/-- The rate formula as the specification states it: the accelerator count
scales only the accelerator cost term. -/
def claimedCostPerSecond (gpuUnitRate cpuHourlyTotal memHourlyTotal gpuCount : ℚ) : ℚ :=
  (gpuUnitRate * gpuCount + cpuHourlyTotal + memHourlyTotal) / 3600

/-! Balance Store and config loading. -/

/-- Result of an api.fetchApi call as the source branches on it: a parsed
OK response, a non-OK response, or a thrown error (network failure or an
unparseable body). -/
inductive FetchResult (α : Type) where
  | ok (value : α)
  | notOk
  | threw
  deriving Repr, DecidableEq

/-- The balance record of balance.json (creditTracker.js lines 108-111). -/
structure BalanceRecord where
  last_updated : ℕ
  remaining_balance : ℚ
  deriving Repr, DecidableEq

/-- Outcome of loadBalance: the in-memory balance plus whether saveBalance
was invoked during the load. -/
structure LoadOutcome where
  balance : BalanceRecord
  persisted : Bool
  deriving Repr, DecidableEq

/-- loadBalance (creditTracker.js lines 101-122), given the configured
starting balance and the current instant: an OK response is used as-is; a
non-OK response seeds a fresh balance and awaits saveBalance; a thrown
error seeds a fresh balance in the catch block without saving it. -/
def loadBalance (starting_balance : ℚ) (now : ℕ) :
    FetchResult BalanceRecord → LoadOutcome
  | .ok b => { balance := b, persisted := false }
  | .notOk => { balance := ⟨now, starting_balance⟩, persisted := true }
  | .threw => { balance := ⟨now, starting_balance⟩, persisted := false }

/-- Configuration record (creditTracker.js lines 83-93). -/
structure Config where
  starting_balance : ℚ
  gpu_costs_per_hour : List (String × ℚ)
  gpu_count : ℚ
  deriving Repr, DecidableEq

/-- Built-in default config installed on a non-OK response
(creditTracker.js lines 83-93). -/
def defaultConfig : Config := ⟨80, default_gpu_costs_per_hour, 1⟩

/-- loadConfig (creditTracker.js lines 76-99): an OK response installs the
fetched config; a non-OK response installs the built-in default; the catch
block on a thrown error only logs, leaving this.config null (modelled as
none). -/
def loadConfig : FetchResult Config → Option Config
  | .ok c => some c
  | .notOk => some defaultConfig
  | .threw => none

/-- Output handed to the rendering layer by updateDisplay
(creditTracker.js lines 282-298): the dollar text, the bar width in
percent, and the red amount of the color-mix call. -/
structure DisplayOut where
  text : ℚ
  widthPercent : ℚ
  redAmount : ℚ
  deriving Repr, DecidableEq

/-- updateDisplay (creditTracker.js lines 282-298):
percentage = (balance / starting_balance) * 100, bar width set to that
percentage, redAmount = 100 - percentage; none of the three is clamped. -/
def updateDisplay (starting_balance remaining_balance : ℚ) : DisplayOut :=
  let percentage := remaining_balance / starting_balance * 100
  { text := remaining_balance
    widthPercent := percentage
    redAmount := 100 - percentage }

/-- loadBalance as executed against the possibly-null config: both seeding
branches dereference config.starting_balance, which throws on a null
config (modelled as none propagating). -/
def loadBalanceWithConfig (config : Option Config) (now : ℕ) :
    FetchResult BalanceRecord → Option LoadOutcome
  | .ok b => some { balance := b, persisted := false }
  | .notOk => config.map fun c => { balance := ⟨now, c.starting_balance⟩, persisted := true }
  | .threw => config.map fun c => { balance := ⟨now, c.starting_balance⟩, persisted := false }

/-- updateDisplay dereferences config.starting_balance (creditTracker.js
line 285) and throws on a null config. -/
def updateDisplayWithConfig (config : Option Config) (remaining : ℚ) : Option DisplayOut :=
  config.map fun c => updateDisplay c.starting_balance remaining

/-- The init sequence loadConfig, loadBalance, then the first
updateDisplay (creditTracker.js lines 67-74), with a thrown TypeError
propagating as none. -/
def initSequence (cfgRes : FetchResult Config) (balRes : FetchResult BalanceRecord)
    (now : ℕ) : Option (LoadOutcome × DisplayOut) :=
  let config := loadConfig cfgRes
  match loadBalanceWithConfig config now balRes with
  | none => none
  | some out =>
    match updateDisplayWithConfig config out.balance.remaining_balance with
    | none => none
    | some d => some (out, d)

/-! Persistence cadence (creditTracker.js lines 315-318). -/

/-- Whether the tick whose Date.now() value is the given millisecond
instant invokes saveBalance: Math.floor(now / 1000) % 10 === 0
(creditTracker.js line 316). -/
def savesAt (nowMs : ℕ) : Bool := (nowMs / 1000) % 10 == 0

/-- At the reference one-second cadence the k-th tick fires at
n0 + 1000 * k milliseconds. -/
def persistsAtTick (n0 k : ℕ) : Bool := savesAt (n0 + 1000 * k)

/-! Reset/Change Detector and durable persist/load. -/

/-- Decision of the Reset/Change Detector. -/
inductive Decision where
  | KEEP
  | RESET
  deriving Repr, DecidableEq

/-- Durable balance record carrying the owner fingerprint recommended in
the persisted-state layout. -/
structure FPBalance where
  remaining : ℚ
  last_updated : ℕ
  owner_fingerprint : String
  deriving Repr, DecidableEq

/-- Modelled from the spec: the Reset/Change Detector is implemented in
backend files (routes.py, modal_credits_node.py) absent from src/;
per the contract, checkFingerprint returns RESET exactly when the current
fingerprint differs from the stored one. -/
def checkFingerprint (current : String) (stored : FPBalance) : Decision :=
  if current ≠ stored.owner_fingerprint then .RESET else .KEEP

/-- Modelled from the spec: on RESET the balance is reseeded to the
configured starting amount, stamped with the new fingerprint and persisted
immediately; on KEEP nothing changes and nothing is persisted. Returns the
resulting balance and whether it was persisted. -/
def fingerprintTick (startAmount : ℚ) (current : String) (now : ℕ)
    (stored : FPBalance) : FPBalance × Bool :=
  match checkFingerprint current stored with
  | .RESET => (⟨startAmount, now, current⟩, true)
  | .KEEP => (stored, false)

/-- Modelled from the spec: the Balance Store persist operation is
implemented by the backend (routes.py) absent from src/; it writes the
full Balance but stamps the durable last_updated field with the save time,
not the in-memory accrual time. -/
def persist (b : FPBalance) (saveTime : ℕ) : FPBalance :=
  { b with last_updated := saveTime }

/-- Modelled from the spec: the Balance Store load operation reads the
durable record back as the Balance. -/
def load (record : FPBalance) : FPBalance := record

/-! Basic lemmas about the tick. -/

theorem tick_remaining (r now : ℚ) (s : TickState) :
    (tick r now s).remaining = max 0 (s.remaining - elapsedSec now s * r) := by
  simp [tick, elapsedSec]
  ring_nf

theorem tick_lastUpdated (r now : ℚ) (s : TickState) :
    (tick r now s).lastUpdated = now := rfl

theorem tick_remaining_nonneg (r now : ℚ) (s : TickState) :
    0 ≤ (tick r now s).remaining := le_max_left 0 _

theorem tick_remaining_le (r now : ℚ) (s : TickState)
    (hr : 0 ≤ r) (he : 0 ≤ elapsedSec now s) (h0 : 0 ≤ s.remaining) :
    (tick r now s).remaining ≤ s.remaining := by
  rw [tick_remaining]
  have hc : 0 ≤ elapsedSec now s * r := mul_nonneg he hr
  exact max_le h0 (by linarith)

theorem tick_lastUpdate (r now : ℚ) (s : TickState) :
    (tick r now s).lastUpdate = now := rfl

theorem runTicks_remaining_le (r : ℚ) (hr : 0 ≤ r) (s : TickState)
    (h0 : 0 ≤ s.remaining) (ts : List ℚ)
    (hts : List.Chain (· ≤ ·) s.lastUpdate ts) :
    (runTicks r s ts).remaining ≤ s.remaining := by
  induction ts generalizing s with
  | nil => exact le_rfl
  | cons t ts ih =>
    cases hts with
    | cons hle hchain =>
      have he : 0 ≤ elapsedSec t s := by
        have : (0 : ℚ) ≤ t - s.lastUpdate := by linarith
        exact div_nonneg this (by norm_num)
      have step := tick_remaining_le r t s hr he h0
      have h0' : 0 ≤ (tick r t s).remaining := tick_remaining_nonneg r t s
      have hlu : (tick r t s).lastUpdate = t := rfl
      have := ih (tick r t s) h0' (by rw [hlu]; exact hchain)
      calc (runTicks r (tick r t s) ts).remaining
          ≤ (tick r t s).remaining := this
        _ ≤ s.remaining := step

/-! Claim theorems. -/

/-- C1: for every tick with elapsed seconds e at least 0 and cost rate r at
least 0, the postcondition is remaining_after = max 0 (remaining_before - e*r)
and the last-update instant becomes now; across any sequence of ticks with
no reset (instants non-decreasing from the stored last update), remaining
is monotonically non-increasing. -/
theorem claim_C1 (r now : ℚ) (s : TickState)
    (hr : 0 ≤ r) (he : 0 ≤ elapsedSec now s) :
    ((tick r now s).remaining = max 0 (s.remaining - elapsedSec now s * r) ∧
      (tick r now s).lastUpdated = now) ∧
    ∀ (s0 : TickState) (ts : List ℚ), 0 ≤ s0.remaining →
      List.Chain (· ≤ ·) s0.lastUpdate ts →
      (runTicks r s0 ts).remaining ≤ s0.remaining :=
  ⟨⟨tick_remaining r now s, rfl⟩,
   fun s0 ts h0 hts => runTicks_remaining_le r hr s0 h0 ts hts⟩

/-- C1 witness: the theorem applied at rate 1/3600 currency per second and
a tick one hour after the last update of a fresh 80-unit balance. -/
theorem claim_C1_witness :
    ((0:ℚ) ≤ 1/3600) ∧ (0 ≤ elapsedSec 3600000 ⟨80, 0, 0⟩) ∧
    (((tick (1/3600) 3600000 ⟨80, 0, 0⟩).remaining
        = max 0 ((⟨80, 0, 0⟩ : TickState).remaining
            - elapsedSec 3600000 ⟨80, 0, 0⟩ * (1/3600)) ∧
      (tick (1/3600) 3600000 ⟨80, 0, 0⟩).lastUpdated = 3600000) ∧
     ∀ (s0 : TickState) (ts : List ℚ), 0 ≤ s0.remaining →
      List.Chain (· ≤ ·) s0.lastUpdate ts →
      (runTicks (1/3600) s0 ts).remaining ≤ s0.remaining) :=
  ⟨by norm_num, by norm_num [elapsedSec],
   claim_C1 (1/3600) 3600000 ⟨80, 0, 0⟩ (by norm_num) (by norm_num [elapsedSec])⟩

/-- C2: remaining is at least 0 after every tick, with any inputs (the
depletion clamps at zero); in particular a debit larger than the current
remaining (remaining 0.50, rate 1.00 per hour, elapsed 2000 seconds)
yields remaining exactly 0, never a negative value. -/
theorem claim_C2 :
    (∀ (r now : ℚ) (s : TickState), 0 ≤ (tick r now s).remaining) ∧
    (tick (1/3600) 2000000 ⟨1/2, 0, 0⟩).remaining = 0 :=
  ⟨fun r now s => tick_remaining_nonneg r now s, by
    show max 0 ((1:ℚ)/2 - 1/3600 * ((2000000 - 0)/1000)) = 0
    rw [max_eq_left (by norm_num)]⟩

/-- C3 counterexample: with accelerator rate 1, cpu hourly total 1, memory
0 and accelerator count 2, the code's rate 4/3600 differs from the claimed
rate (1*2 + 1)/3600, because the code multiplies the cpu and memory terms
by the accelerator count as well. -/
theorem claim_C3_counterexample :
    costPerSecond 1 1 0 2 ≠ claimedCostPerSecond 1 1 0 2 := by
  simp only [costPerSecond, totalCostPerHour, claimedCostPerSecond]
  norm_num

/-- C3 amended: the computed cost rate is
(gpu*count + cpu*count + mem*count) / 3600 — the accelerator count
multiplies every term, not only the accelerator one; the code agrees with
the claimed formula exactly when the count is 1. -/
theorem claim_C3 (g c m n : ℚ) :
    costPerSecond g c m n = (g * n + c * n + m * n) / 3600 ∧
    costPerSecond g c m 1 = claimedCostPerSecond g c m 1 := by
  constructor <;>
    · simp only [costPerSecond, totalCostPerHour, claimedCostPerSecond]
      ring

/-- C4: the accelerator rate lookup is total and returns the rate of the
first table entry in enumeration order whose key matches the observed name
by case-sensitive substring containment in either direction, and 1.0 when
no entry matches; in particular the unmatched name Custom-GPU-X against
the default table yields 1.0. -/
theorem claim_C4 (gpuType : String) (table : List (String × ℚ)) :
    detectGPURate gpuType table =
      ((table.find? fun e => gpuMatches gpuType e.1).map Prod.snd).getD 1 ∧
    detectGPURate "Custom-GPU-X" default_gpu_costs_per_hour = 1 := by
  constructor
  · induction table with
    | nil => rfl
    | cons e rest ih =>
      obtain ⟨name, cost⟩ := e
      by_cases h : gpuMatches gpuType name
      · simp [detectGPURate, List.find?, h]
      · have hf : gpuMatches gpuType name = false := by simpa using h
        simp [detectGPURate, List.find?, hf, ih]
  · decide

/-- C5: when the current fingerprint differs from the stored one,
checkFingerprint returns RESET and the balance is reseeded exactly once to
the configured starting amount, stamped with the new fingerprint and
persisted immediately; a subsequent check with the unchanged fingerprint
returns KEEP and does not reseed or persist. -/
theorem claim_C5 (sa : ℚ) (cur : String) (now now2 : ℕ) (stored : FPBalance)
    (h : cur ≠ stored.owner_fingerprint) :
    checkFingerprint cur stored = .RESET ∧
    (fingerprintTick sa cur now stored).1 = ⟨sa, now, cur⟩ ∧
    (fingerprintTick sa cur now stored).2 = true ∧
    checkFingerprint cur (fingerprintTick sa cur now stored).1 = .KEEP ∧
    fingerprintTick sa cur now2 (fingerprintTick sa cur now stored).1 =
      ((fingerprintTick sa cur now stored).1, false) := by
  simp [checkFingerprint, fingerprintTick, h]

/-- C5 witness: the theorem applied with stored fingerprint acct-A and
current fingerprint acct-B. -/
theorem claim_C5_witness :
    ("acct-B" ≠ ("acct-A" : String)) ∧
    (checkFingerprint "acct-B" ⟨80, 0, "acct-A"⟩ = .RESET ∧
     (fingerprintTick 80 "acct-B" 7 ⟨80, 0, "acct-A"⟩).1 = ⟨80, 7, "acct-B"⟩ ∧
     (fingerprintTick 80 "acct-B" 7 ⟨80, 0, "acct-A"⟩).2 = true ∧
     checkFingerprint "acct-B" (fingerprintTick 80 "acct-B" 7 ⟨80, 0, "acct-A"⟩).1 = .KEEP ∧
     fingerprintTick 80 "acct-B" 9 (fingerprintTick 80 "acct-B" 7 ⟨80, 0, "acct-A"⟩).1 =
       ((fingerprintTick 80 "acct-B" 7 ⟨80, 0, "acct-A"⟩).1, false)) :=
  ⟨by decide, claim_C5 80 "acct-B" 7 9 ⟨80, 0, "acct-A"⟩ (by decide)⟩

/-- C6 counterexample: a read error (thrown fetch) is a self-healing case
that seeds a fresh balance, yet loadBalance does not persist it — the
catch block never calls saveBalance. -/
theorem claim_C6_counterexample :
    (loadBalance 80 0 .threw).balance = ⟨0, 80⟩ ∧
    (loadBalance 80 0 .threw).persisted = false := by
  exact ⟨rfl, rfl⟩

/-- C6 amended: on an absent record (non-OK response) loadBalance seeds a
fresh balance with remaining equal to the configured starting amount and
immediately persists it; on a read error it seeds the same fresh balance
but does not persist it. -/
theorem claim_C6 (sb : ℚ) (now : ℕ) :
    (loadBalance sb now .notOk).balance.remaining_balance = sb ∧
    (loadBalance sb now .notOk).balance.last_updated = now ∧
    (loadBalance sb now .notOk).persisted = true ∧
    (loadBalance sb now .threw).balance.remaining_balance = sb ∧
    (loadBalance sb now .threw).balance.last_updated = now ∧
    (loadBalance sb now .threw).persisted = false :=
  ⟨rfl, rfl, rfl, rfl, rfl, rfl⟩

/-- C7: the claim fails on the code — when the config fetch throws, the
catch block of loadConfig leaves the config null, and the subsequent
balance seeding dereferences config.starting_balance and crashes (modelled
as none), so the init sequence does not complete; it does complete when
the config fetch merely returns non-OK and the built-in defaults are
installed. -/
theorem claim_C7 :
    initSequence .threw .notOk 0 = none ∧
    initSequence .notOk .notOk 0 =
      some (⟨⟨0, 80⟩, true⟩, updateDisplay 80 80) := by
  exact ⟨rfl, rfl⟩

/-- C8: at the reference one-second cadence (the k-th tick fires at
n0 + 1000*k milliseconds), every window of 10 consecutive ticks contains
exactly one tick on which saveBalance is invoked. -/
theorem claim_C8 (n0 k : ℕ) :
    ((List.range 10).filter fun j => persistsAtTick n0 (k + j)).length = 1 := by
  have h : ∀ j ∈ List.range 10,
      persistsAtTick n0 (k + j) = ((n0 / 1000 + k + j) % 10 == 0) := by
    intro j _
    unfold persistsAtTick savesAt
    have hdiv : (n0 + 1000 * (k + j)) / 1000 = n0 / 1000 + k + j := by omega
    rw [hdiv]
  rw [List.filter_congr h]
  have hlt : n0 / 1000 + k < n0 / 1000 + k + 10 := by omega
  have hmod : (n0 / 1000 + k) % 10 < 10 := Nat.mod_lt _ (by norm_num)
  have key : ∀ a : ℕ,
      ((List.range 10).filter fun j => (a + j) % 10 == 0).length = 1 := by
    intro a
    have h2 : ∀ j ∈ List.range 10,
        ((a + j) % 10 == 0) = ((a % 10 + j) % 10 == 0) := by
      intro j hj
      have : (a + j) % 10 = (a % 10 + j) % 10 := by
        conv_lhs => rw [Nat.add_mod, Nat.mod_eq_of_lt (List.mem_range.mp hj)]
      rw [this]
    rw [List.filter_congr h2]
    have hr : a % 10 < 10 := Nat.mod_lt _ (by norm_num)
    revert hr
    generalize a % 10 = r
    intro hr
    interval_cases r <;> decide
  exact key (n0 / 1000 + k)

/-- C9 counterexample: persisting a balance whose in-memory last_updated
is 0 at save time 5 and loading it back yields last_updated 5, not the
original record. -/
theorem claim_C9_counterexample :
    load (persist ⟨80, 0, "acct-A"⟩ 5) ≠ (⟨80, 0, "acct-A"⟩ : FPBalance) := by
  intro h
  exact absurd (congrArg FPBalance.last_updated h) (by decide)

/-- C9 amended: load after persist returns the balance with every field
preserved except last_updated, which is replaced by the save time; the
round-trip is the identity exactly when the save time equals the
balance's in-memory last_updated. -/
theorem claim_C9 (b : FPBalance) (t : ℕ) :
    load (persist b t) = { b with last_updated := t } ∧
    (load (persist b t) = b ↔ t = b.last_updated) := by
  refine ⟨rfl, ⟨fun h => congrArg FPBalance.last_updated h, fun h => ?_⟩⟩
  show ({ b with last_updated := t } : FPBalance) = b
  rw [h]

/-- C10: when remaining exceeds starting (with starting positive),
updateDisplay computes percentage = 100 * remaining / starting strictly
above 100 and uses it unclamped as the bar width, and the red-mix amount
100 - percentage is negative. -/
theorem claim_C10 (s r : ℚ) (hs : 0 < s) (hr : s < r) :
    (updateDisplay s r).widthPercent = r / s * 100 ∧
    100 < (updateDisplay s r).widthPercent ∧
    (updateDisplay s r).redAmount = 100 - (updateDisplay s r).widthPercent ∧
    (updateDisplay s r).redAmount < 0 := by
  have h1 : (1:ℚ) < r / s := (one_lt_div hs).mpr hr
  have h2 : (100:ℚ) < r / s * 100 := by linarith
  refine ⟨rfl, ?_, rfl, ?_⟩
  · show (100:ℚ) < r / s * 100
    exact h2
  · show 100 - r / s * 100 < (0:ℚ)
    linarith

/-- C10 witness: the theorem applied at starting 80 and remaining 100,
where the width percent is 125 and the red amount is minus 25. -/
theorem claim_C10_witness :
    ((0:ℚ) < 80) ∧ ((80:ℚ) < 100) ∧
    ((updateDisplay 80 100).widthPercent = 100 / 80 * 100 ∧
     100 < (updateDisplay 80 100).widthPercent ∧
     (updateDisplay 80 100).redAmount = 100 - (updateDisplay 80 100).widthPercent ∧
     (updateDisplay 80 100).redAmount < 0) :=
  ⟨by norm_num, by norm_num, claim_C10 80 100 (by norm_num) (by norm_num)⟩

end ModalCredits
